import Mathlib

/-!
Shallow embedding of the Comparable Sales Valuation Engine of the
propertyappeal repository, translated from
src/services/ComparableService.ts, src/services/AnalysisService.ts and
src/app/api/analysis/route.ts.  JavaScript numbers are modelled as
rationals, dates as integers (any totally ordered time scale), and the
clock reading that filterComparables performs internally
(new Date() minus six calendar months) is made an explicit
parameter named sixMonthsAgo.
-/

namespace PropertyAppeal

/-- Physical characteristics shared by the subject property and the
comparables, mirroring the characteristics object of RentCastTypes. -/
structure Characteristics where
  sqft : ℚ
  bedrooms : ℚ
  bathrooms : ℚ
  lotSize : ℚ
  yearBuilt : ℚ
deriving DecidableEq

/-- Subject property: the fields of the Property interface that the
valuation engine reads. -/
structure Property where
  characteristics : Characteristics
  currentAssessedValue : Option ℚ
deriving DecidableEq

/-- Named price adjustments, mirroring the five keys that
calculateAdjustments writes into its Record in insertion order:
size, bedroom, bathroom, lotSize, age. -/
structure Adjustments where
  size : ℚ
  bedroom : ℚ
  bathroom : ℚ
  lotSize : ℚ
  age : ℚ
deriving DecidableEq

/-- Object.values of the adjustments record, in insertion order. -/
def Adjustments.values (a : Adjustments) : List ℚ :=
  [a.size, a.bedroom, a.bathroom, a.lotSize, a.age]

/-- The all-zero adjustments record a freshly mapped comparable carries
before processComparables fills it in. -/
def zeroAdjustments : Adjustments :=
  { size := 0, bedroom := 0, bathroom := 0, lotSize := 0, age := 0 }

/-- Comparable sale record: the fields of the Comparable interface that
the valuation engine reads. -/
structure Comparable where
  salePrice : ℚ
  saleDate : ℤ
  distanceMiles : ℚ
  characteristics : Characteristics
  adjustments : Adjustments
  adjustedPrice : ℚ
deriving DecidableEq

/-- Embedding of ComparableService.calculateAdjustments. -/
def calculateAdjustments (subjectProperty : Property) (comp : Comparable) : Adjustments :=
  let sizeDiff := comp.characteristics.sqft - subjectProperty.characteristics.sqft
  let sizeAdjustment := sizeDiff * 150
  let bedroomDiff := comp.characteristics.bedrooms - subjectProperty.characteristics.bedrooms
  let bedroomAdjustment := bedroomDiff * 25000
  let bathroomDiff := comp.characteristics.bathrooms - subjectProperty.characteristics.bathrooms
  let bathroomAdjustment := bathroomDiff * 15000
  let lotDiff := comp.characteristics.lotSize - subjectProperty.characteristics.lotSize
  let lotAdjustment := lotDiff * 50000
  let ageDiff := comp.characteristics.yearBuilt - subjectProperty.characteristics.yearBuilt
  let ageAdjustment := ageDiff * 1000
  { size := -sizeAdjustment
    bedroom := -bedroomAdjustment
    bathroom := -bathroomAdjustment
    lotSize := -lotAdjustment
    age := -ageAdjustment }

/-- Embedding of ComparableService.applyAdjustments: sums
Object.values of the adjustments record and adds it to the sale price. -/
def applyAdjustments (comp : Comparable) : Comparable :=
  let totalAdjustment := comp.adjustments.values.foldl (fun sum adj => sum + adj) 0
  { comp with adjustedPrice := comp.salePrice + totalAdjustment }

/-- The filter callback inside ComparableService.filterComparables,
with the clock-derived cutoff (new Date() minus six calendar months)
passed in as sixMonthsAgo. -/
def passesFilter (subjectProperty : Property) (sixMonthsAgo : ℤ) (comp : Comparable) : Bool :=
  let sizeRatio := comp.characteristics.sqft / subjectProperty.characteristics.sqft
  if sizeRatio < 0.8 ∨ sizeRatio > 1.2 then false
  else
    let bedroomDiff := |comp.characteristics.bedrooms - subjectProperty.characteristics.bedrooms|
    if bedroomDiff > 1 then false
    else
      let bathroomDiff := |comp.characteristics.bathrooms - subjectProperty.characteristics.bathrooms|
      if bathroomDiff > 1 then false
      else
        let lotRatio := comp.characteristics.lotSize / subjectProperty.characteristics.lotSize
        if lotRatio < 0.75 ∨ lotRatio > 1.25 then false
        else if comp.distanceMiles > 1.0 then false
        else if comp.saleDate < sixMonthsAgo then false
        else true

/-- Embedding of ComparableService.filterComparables. -/
def filterComparables (comparables : List Comparable) (subjectProperty : Property)
    (sixMonthsAgo : ℤ) : List Comparable :=
  comparables.filter (passesFilter subjectProperty sixMonthsAgo)

/-- Adjusted prices of the comparables, sorted ascending as by the
JavaScript comparator (a, b) => a - b. -/
def sortedAdjustedPrices (comparables : List Comparable) : List ℚ :=
  List.insertionSort (· ≤ ·) (comparables.map fun comp => comp.adjustedPrice)

/-- Outlier count removed from each end: Math.floor(length * 0.2). -/
def removeCountOf (n : ℕ) : ℕ :=
  (⌊(n : ℚ) * 0.2⌋).toNat

/-- The slice adjustedPrices.slice(removeCount, length - removeCount)
taken by calculateMarketValue. -/
def trimmedPrices (comparables : List Comparable) : List ℚ :=
  let adjustedPrices := sortedAdjustedPrices comparables
  let removeCount := removeCountOf adjustedPrices.length
  (adjustedPrices.drop removeCount).take (adjustedPrices.length - removeCount - removeCount)

/-- Embedding of ComparableService.calculateMarketValue: 0 on empty
input, else the median of the trimmed sorted adjusted prices. -/
def calculateMarketValue (comparables : List Comparable) : ℚ :=
  if comparables.length = 0 then 0
  else
    let t := trimmedPrices comparables
    let mid := t.length / 2
    if t.length % 2 = 0 then (t.getD (mid - 1) 0 + t.getD mid 0) / 2
    else t.getD mid 0

/-- Qualitative confidence tier. -/
inductive Confidence where
  | low
  | medium
  | high
deriving DecidableEq

/-- Numeric rank of a confidence tier under the order low, medium, high. -/
def Confidence.rank : Confidence → ℕ
  | .low => 0
  | .medium => 1
  | .high => 2

/-- Embedding of ComparableService.calculateConfidence. -/
def calculateConfidence (comparables : List Comparable) : Confidence :=
  let count := comparables.length
  if count ≥ 5 then .high
  else if count ≥ 3 then .medium
  else .low

/-- Result record of ComparableService.processComparables. -/
structure ProcessResult where
  comparables : List Comparable
  marketValue : ℚ
  confidence : Confidence
deriving DecidableEq

/-- Embedding of ComparableService.processComparables: filter, fill in
adjustments, apply them, then aggregate and score. -/
def processComparables (rawComparables : List Comparable) (subjectProperty : Property)
    (sixMonthsAgo : ℤ) : ProcessResult :=
  let filteredComparables :=
    (filterComparables rawComparables subjectProperty sixMonthsAgo).map fun comp =>
      applyAdjustments { comp with adjustments := calculateAdjustments subjectProperty comp }
  { comparables := filteredComparables
    marketValue := calculateMarketValue filteredComparables
    confidence := calculateConfidence filteredComparables }

/-- Assessment verdict. -/
inductive Verdict where
  | overAssessed
  | fair
  | underAssessed
deriving DecidableEq

/-- Embedding of the percentage-difference computation of
AnalysisService.analyzeProperty: (assessed - final) / assessed * 100
when assessed > 0, else 0. -/
def percentageDifference (assessedValue finalMarketValue : ℚ) : ℚ :=
  if assessedValue > 0 then (assessedValue - finalMarketValue) / assessedValue * 100 else 0

/-- Embedding of the verdict classification of
AnalysisService.analyzeProperty. -/
def classifyVerdict (pd : ℚ) : Verdict :=
  if |pd| ≤ 5 then .fair
  else if pd > 5 then .overAssessed
  else .underAssessed

/-- The fixed default tax rate of AnalysisService.analyzeProperty. -/
def taxRate : ℚ := 0.055

/-- Embedding of the annual-savings computation of
AnalysisService.analyzeProperty. -/
def annualSavingsOf (difference : ℚ) (verdict : Verdict) : ℚ :=
  if verdict = .overAssessed then |difference| * taxRate else 0

/-- Monthly savings: annual savings divided by 12. -/
def monthlySavingsOf (difference : ℚ) (verdict : Verdict) : ℚ :=
  annualSavingsOf difference verdict / 12

/-- The JavaScript assignment avmResult?.value || null: a retrieved
value of 0 is coerced to null. -/
def normalizeAvm : Option ℚ → Option ℚ
  | none => none
  | some v => if v = 0 then none else some v

/-- JavaScript truthiness of the avmValue variable (null or a number). -/
def jsTruthy : Option ℚ → Bool
  | none => false
  | some v => decide (v ≠ 0)

/-- Embedding of the AVM blending step of
AnalysisService.analyzeProperty (also in the analysis route):
if (avmValue && comparables.length < 3) blend 0.7 / 0.3, else keep the
comparable-derived value. -/
def blendValue (marketValue : ℚ) (avmValue : Option ℚ) (sampleSize : ℕ) : ℚ :=
  if jsTruthy avmValue = true ∧ sampleSize < 3 then
    marketValue * 0.7 + (avmValue.getD 0) * 0.3
  else marketValue

/-- The fields of the PropertyAnalysis result produced by
AnalysisService.analyzeProperty that the engine computes. -/
structure PropertyAnalysis where
  comparables : List Comparable
  marketValue : ℚ
  assessedValue : ℚ
  difference : ℚ
  percentageDifference : ℚ
  taxRate : ℚ
  annualSavings : ℚ
  monthlySavings : ℚ
  confidenceLevel : Confidence
  sampleSize : ℕ
  verdict : Verdict
deriving DecidableEq

/-- Embedding of steps 3 through 8 of AnalysisService.analyzeProperty:
process comparables, optionally blend with the AVM value, compare with
the assessed value, classify, and estimate savings.  The upstream data
fetches are abstracted into the rawComparables and avmResult arguments,
and the clock reading into sixMonthsAgo. -/
def analyzeProperty (property : Property) (rawComparables : List Comparable)
    (avmResult : Option ℚ) (sixMonthsAgo : ℤ) : PropertyAnalysis :=
  let processed := processComparables rawComparables property sixMonthsAgo
  let avmValue := normalizeAvm avmResult
  let finalMarketValue := blendValue processed.marketValue avmValue processed.comparables.length
  let assessedValue := property.currentAssessedValue.getD 0
  let difference := assessedValue - finalMarketValue
  let pd := percentageDifference assessedValue finalMarketValue
  let verdict := classifyVerdict pd
  let annualSavings := annualSavingsOf difference verdict
  { comparables := processed.comparables
    marketValue := finalMarketValue
    assessedValue := assessedValue
    difference := difference
    percentageDifference := pd
    taxRate := taxRate
    annualSavings := annualSavings
    monthlySavings := annualSavings / 12
    confidenceLevel := processed.confidence
    sampleSize := processed.comparables.length
    verdict := verdict }

/-! Sample data used by the concrete witnesses below. -/

/-- Sample subject property: 2000 sqft, 3 bed, 2 bath, quarter-acre lot,
built 2010, assessed at 500000. -/
def sampleSubject : Property :=
  { characteristics :=
      { sqft := 2000, bedrooms := 3, bathrooms := 2, lotSize := 1/4, yearBuilt := 2010 }
    currentAssessedValue := some 500000 }

/-- Sample comparable that passes every filter predicate against
sampleSubject for any cutoff at most 10. -/
def sampleComp : Comparable :=
  { salePrice := 440000
    saleDate := 10
    distanceMiles := 1/2
    characteristics :=
      { sqft := 1900, bedrooms := 3, bathrooms := 2, lotSize := 1/4, yearBuilt := 2008 }
    adjustments := zeroAdjustments
    adjustedPrice := 440000 }

/-- Characterization of the filter callback: it accepts a candidate
exactly when all six spec predicates hold. -/
theorem passesFilter_iff (subjectProperty : Property) (sixMonthsAgo : ℤ) (comp : Comparable) :
    passesFilter subjectProperty sixMonthsAgo comp = true ↔
      (0.8 ≤ comp.characteristics.sqft / subjectProperty.characteristics.sqft ∧
        comp.characteristics.sqft / subjectProperty.characteristics.sqft ≤ 1.2) ∧
      |comp.characteristics.bedrooms - subjectProperty.characteristics.bedrooms| ≤ 1 ∧
      |comp.characteristics.bathrooms - subjectProperty.characteristics.bathrooms| ≤ 1 ∧
      (0.75 ≤ comp.characteristics.lotSize / subjectProperty.characteristics.lotSize ∧
        comp.characteristics.lotSize / subjectProperty.characteristics.lotSize ≤ 1.25) ∧
      comp.distanceMiles ≤ 1.0 ∧
      sixMonthsAgo ≤ comp.saleDate := by
  simp only [passesFilter]
  split_ifs with h1 h2 h3 h4 h5 h6
  · simp only [Bool.false_eq_true, false_iff]
    rintro ⟨⟨ha1, ha2⟩, -, -, -, -, -⟩
    rcases h1 with h | h <;> linarith
  · simp only [Bool.false_eq_true, false_iff]
    rintro ⟨-, hb, -, -, -, -⟩
    linarith
  · simp only [Bool.false_eq_true, false_iff]
    rintro ⟨-, -, hc, -, -, -⟩
    linarith
  · simp only [Bool.false_eq_true, false_iff]
    rintro ⟨-, -, -, ⟨hd1, hd2⟩, -, -⟩
    rcases h4 with h | h <;> linarith
  · simp only [Bool.false_eq_true, false_iff]
    rintro ⟨-, -, -, -, he, -⟩
    linarith
  · simp only [Bool.false_eq_true, false_iff]
    rintro ⟨-, -, -, -, -, hf⟩
    omega
  · simp only [true_iff]
    push_neg at h1 h2 h3 h4 h5 h6
    exact ⟨⟨h1.1, h1.2⟩, h2, h3, ⟨h4.1, h4.2⟩, h5, by omega⟩

/-- Claim C1: for a subject with positive living area and lot size,
the filter keeps a candidate iff all six predicates hold (size ratio in
[0.8, 1.2], bedroom and bathroom differences at most 1 in absolute
value, lot ratio in [0.75, 1.25], distance at most 1 mile, sale date on
or after the cutoff six calendar months before the evaluation date),
and the returned list is a subset of the candidates. -/
theorem filterComparables_mem_iff (subjectProperty : Property) (sixMonthsAgo : ℤ)
    (candidates : List Comparable)
    (hsq : 0 < subjectProperty.characteristics.sqft)
    (hlot : 0 < subjectProperty.characteristics.lotSize) :
    (∀ comp : Comparable,
      comp ∈ filterComparables candidates subjectProperty sixMonthsAgo ↔
        comp ∈ candidates ∧
        (0.8 ≤ comp.characteristics.sqft / subjectProperty.characteristics.sqft ∧
          comp.characteristics.sqft / subjectProperty.characteristics.sqft ≤ 1.2) ∧
        |comp.characteristics.bedrooms - subjectProperty.characteristics.bedrooms| ≤ 1 ∧
        |comp.characteristics.bathrooms - subjectProperty.characteristics.bathrooms| ≤ 1 ∧
        (0.75 ≤ comp.characteristics.lotSize / subjectProperty.characteristics.lotSize ∧
          comp.characteristics.lotSize / subjectProperty.characteristics.lotSize ≤ 1.25) ∧
        comp.distanceMiles ≤ 1.0 ∧
        sixMonthsAgo ≤ comp.saleDate) ∧
    filterComparables candidates subjectProperty sixMonthsAgo ⊆ candidates := by
  constructor
  · intro comp
    rw [filterComparables, List.mem_filter, passesFilter_iff]
  · intro comp hmem
    exact (List.mem_filter.mp hmem).1

/-- Witness for claim C1 at concrete inputs: the sample subject has
positive living area and lot size, and the filtered singleton list is a
subset of the input list. -/
theorem filterComparables_mem_iff_witness :
    filterComparables [sampleComp] sampleSubject 0 ⊆ [sampleComp] :=
  (filterComparables_mem_iff sampleSubject 0 [sampleComp]
    (by norm_num [sampleSubject]) (by norm_num [sampleSubject])).2

/-- The sorted price list has the same length as the input list. -/
theorem sortedAdjustedPrices_length (comparables : List Comparable) :
    (sortedAdjustedPrices comparables).length = comparables.length := by
  rw [sortedAdjustedPrices, List.length_insertionSort, List.length_map]

/-- The outlier count Math.floor(n * 0.2) is the natural division n / 5. -/
theorem removeCountOf_eq (n : ℕ) : removeCountOf n = n / 5 := by
  rw [removeCountOf, Int.floor_toNat,
    show ((n : ℚ)) * 0.2 = (n : ℚ) / ((5 : ℕ) : ℚ) by
      rw [show (0.2 : ℚ) = 1 / 5 by norm_num]; push_cast; ring,
    Nat.floor_div_nat, Nat.floor_natCast]

/-- Length of the trimmed slice: the sorted list minus the outliers
removed from each end. -/
theorem trimmedPrices_length (comparables : List Comparable) :
    (trimmedPrices comparables).length
      = comparables.length - 2 * removeCountOf comparables.length := by
  have hlen := sortedAdjustedPrices_length comparables
  rw [trimmedPrices]
  simp only [List.length_take, List.length_drop, hlen]
  omega

/-- Claim C2: the aggregator returns 0 on empty input; otherwise it
sorts the adjusted prices ascending (the sorted list is a permutation
of the adjusted prices and is sorted), removes exactly
Math.floor(n * 0.2) elements from each end, and returns the median of
the remainder: the average of the two middle values when the trimmed
count is even, the single middle value when it is odd. -/
theorem calculateMarketValue_spec (comparables : List Comparable) :
    (comparables = [] → calculateMarketValue comparables = 0) ∧
    (comparables ≠ [] →
      (sortedAdjustedPrices comparables).Perm
        (comparables.map fun comp => comp.adjustedPrice) ∧
      (sortedAdjustedPrices comparables).Sorted (· ≤ ·) ∧
      ((removeCountOf comparables.length : ℤ)
          = ⌊((comparables.length : ℚ)) * 0.2⌋) ∧
      (trimmedPrices comparables).length
          = comparables.length - 2 * removeCountOf comparables.length ∧
      calculateMarketValue comparables =
        (if (trimmedPrices comparables).length % 2 = 0 then
          ((trimmedPrices comparables).getD ((trimmedPrices comparables).length / 2 - 1) 0
            + (trimmedPrices comparables).getD ((trimmedPrices comparables).length / 2) 0) / 2
        else (trimmedPrices comparables).getD ((trimmedPrices comparables).length / 2) 0)) := by
  constructor
  · rintro rfl
    rfl
  · intro hne
    refine ⟨List.perm_insertionSort _ _, List.sorted_insertionSort _ _, ?_, ?_, ?_⟩
    · rw [removeCountOf, Int.toNat_of_nonneg (Int.floor_nonneg.mpr (by positivity))]
    · exact trimmedPrices_length comparables
    · rw [calculateMarketValue, if_neg]
      simpa using hne

/-- Witness for claim C2 at a concrete input: the empty list of
comparables aggregates to 0. -/
theorem calculateMarketValue_spec_witness :
    calculateMarketValue ([] : List Comparable) = 0 :=
  (calculateMarketValue_spec []).1 rfl

/-- Claim C10: for non-empty input the outlier count satisfies
2 * floor(n * 0.2) < n, so the trimmed list is non-empty and both
median indices are within bounds. -/
theorem trimmedPrices_in_bounds (comparables : List Comparable)
    (hne : comparables ≠ []) :
    2 * removeCountOf comparables.length < comparables.length ∧
    trimmedPrices comparables ≠ [] ∧
    (trimmedPrices comparables).length / 2 < (trimmedPrices comparables).length ∧
    ((trimmedPrices comparables).length % 2 = 0 →
      (trimmedPrices comparables).length / 2 - 1 < (trimmedPrices comparables).length) := by
  have hpos : 0 < comparables.length := List.length_pos.mpr hne
  have hrc := removeCountOf_eq comparables.length
  have hlt : 2 * removeCountOf comparables.length < comparables.length := by omega
  have hlen := trimmedPrices_length comparables
  have htpos : 0 < (trimmedPrices comparables).length := by omega
  exact ⟨hlt, List.length_pos.mp htpos, by omega, by omega⟩

/-- Witness for claim C10 at a concrete input: for the singleton sample
list the trimmed price list is non-empty. -/
theorem trimmedPrices_in_bounds_witness :
    trimmedPrices [sampleComp] ≠ [] :=
  (trimmedPrices_in_bounds [sampleComp] (by simp)).2.1

/-- Claim C3: the adjustment calculator produces exactly the five named
adjustments with the spec formulas, and applying them yields
adjustedPrice = salePrice plus the sum of the five adjustment values. -/
theorem calculateAdjustments_spec (subjectProperty : Property) (comp : Comparable) :
    (calculateAdjustments subjectProperty comp).values.length = 5 ∧
    (calculateAdjustments subjectProperty comp).size
        = -(comp.characteristics.sqft - subjectProperty.characteristics.sqft) * 150 ∧
    (calculateAdjustments subjectProperty comp).bedroom
        = -(comp.characteristics.bedrooms - subjectProperty.characteristics.bedrooms) * 25000 ∧
    (calculateAdjustments subjectProperty comp).bathroom
        = -(comp.characteristics.bathrooms - subjectProperty.characteristics.bathrooms) * 15000 ∧
    (calculateAdjustments subjectProperty comp).lotSize
        = -(comp.characteristics.lotSize - subjectProperty.characteristics.lotSize) * 50000 ∧
    (calculateAdjustments subjectProperty comp).age
        = -(comp.characteristics.yearBuilt - subjectProperty.characteristics.yearBuilt) * 1000 ∧
    (applyAdjustments
        { comp with adjustments := calculateAdjustments subjectProperty comp }).adjustedPrice
      = comp.salePrice
        + ((calculateAdjustments subjectProperty comp).size
          + (calculateAdjustments subjectProperty comp).bedroom
          + (calculateAdjustments subjectProperty comp).bathroom
          + (calculateAdjustments subjectProperty comp).lotSize
          + (calculateAdjustments subjectProperty comp).age) := by
  refine ⟨rfl, ?_, ?_, ?_, ?_, ?_, ?_⟩ <;>
    simp [calculateAdjustments, applyAdjustments, Adjustments.values] <;> ring

/-- Claim C4: the percentage difference is
(assessed - final) / assessed * 100 for positive assessed value and 0
otherwise, the verdict is fair iff it is within 5 in absolute value,
over-assessed iff above 5, under-assessed iff below -5, and a zero
assessed value always yields the fair verdict. -/
theorem verdict_spec (assessedValue finalMarketValue pd : ℚ) :
    (0 < assessedValue →
      percentageDifference assessedValue finalMarketValue
        = (assessedValue - finalMarketValue) / assessedValue * 100) ∧
    (assessedValue ≤ 0 → percentageDifference assessedValue finalMarketValue = 0) ∧
    (classifyVerdict pd = .fair ↔ |pd| ≤ 5) ∧
    (classifyVerdict pd = .overAssessed ↔ 5 < pd) ∧
    (classifyVerdict pd = .underAssessed ↔ pd < -5) ∧
    (assessedValue = 0 →
      classifyVerdict (percentageDifference assessedValue finalMarketValue) = .fair) := by
  refine ⟨?_, ?_, ?_, ?_, ?_, ?_⟩
  · intro h
    rw [percentageDifference, if_pos h]
  · intro h
    rw [percentageDifference, if_neg (not_lt.mpr h)]
  · rw [classifyVerdict]
    split_ifs with h1 h2 <;> simp [h1]
  · rw [classifyVerdict]
    split_ifs with h1 h2
    · simp only [reduceCtorEq, false_iff, not_lt]
      exact (le_abs_self pd).trans h1
    · simp [h2]
    · simp [h2]
  · rw [classifyVerdict]
    split_ifs with h1 h2
    · simp only [reduceCtorEq, false_iff, not_lt]
      exact (neg_le_neg h1).trans (neg_abs_le pd)
    · simp only [reduceCtorEq, false_iff, not_lt]
      push_neg at h1
      linarith
    · simp only [true_iff]
      push_neg at h1 h2
      rcases abs_cases pd with ⟨habs, -⟩ | ⟨habs, -⟩ <;> linarith
  · rintro rfl
    rw [percentageDifference, if_neg (lt_irrefl 0), classifyVerdict,
      if_pos (by norm_num)]

/-- Witness for claim C4 at a concrete input: a zero assessed value
yields the fair verdict. -/
theorem verdict_spec_witness :
    classifyVerdict (percentageDifference 0 123) = Verdict.fair :=
  (verdict_spec 0 123 0).2.2.2.2.2 rfl

/-- A value surviving the JavaScript null-coercion is nonzero. -/
theorem normalizeAvm_some_ne_zero {avmResult : Option ℚ} {v : ℚ}
    (h : normalizeAvm avmResult = some v) : v ≠ 0 := by
  cases avmResult with
  | none => simp [normalizeAvm] at h
  | some x =>
    simp only [normalizeAvm] at h
    by_cases hx : x = 0
    · rw [if_pos hx] at h
      exact absurd h (by simp)
    · rw [if_neg hx] at h
      exact (Option.some.inj h) ▸ hx

/-- Claim C5: when the AVM value is available and the sample size is
below 3 the final value is 0.7 times the comparable-derived value plus
0.3 times the AVM value; when the AVM value is available and the sample
size is at least 3, or the AVM value is unavailable, the final value is
the comparable-derived value. -/
theorem blendValue_spec (marketValue : ℚ) (avmResult : Option ℚ) (sampleSize : ℕ) :
    (∀ v : ℚ, normalizeAvm avmResult = some v → sampleSize < 3 →
      blendValue marketValue (normalizeAvm avmResult) sampleSize
        = 0.7 * marketValue + 0.3 * v) ∧
    (∀ v : ℚ, normalizeAvm avmResult = some v → 3 ≤ sampleSize →
      blendValue marketValue (normalizeAvm avmResult) sampleSize = marketValue) ∧
    (normalizeAvm avmResult = none →
      blendValue marketValue (normalizeAvm avmResult) sampleSize = marketValue) := by
  refine ⟨?_, ?_, ?_⟩
  · intro v hv hn
    have hvne := normalizeAvm_some_ne_zero hv
    rw [blendValue, if_pos ⟨by simp [hv, jsTruthy, hvne], hn⟩, hv]
    simp only [Option.getD_some]
    ring
  · intro v hv hn
    rw [blendValue, if_neg]
    rintro ⟨-, hlt⟩
    omega
  · intro hv
    rw [blendValue, if_neg]
    rintro ⟨ht, -⟩
    rw [hv] at ht
    simp [jsTruthy] at ht

/-- Witness for claim C5 at the spec's scenario D: 2 comparables,
comparable-derived value 400000 and available AVM value 410000 blend to
403000. -/
theorem blendValue_spec_witness :
    blendValue 400000 (normalizeAvm (some 410000)) 2 = 403000 := by
  rw [(blendValue_spec 400000 (some 410000) 2).1 410000
    (by norm_num [normalizeAvm]) (by norm_num)]
  norm_num

/-- Claim C6: annual savings are the absolute difference times the
0.055 tax rate for the over-assessed verdict and 0 otherwise, monthly
savings are a twelfth of the annual savings, and the annual savings are
never negative. -/
theorem savings_spec (difference : ℚ) (verdict : Verdict) :
    (verdict = .overAssessed →
      annualSavingsOf difference verdict = |difference| * 0.055) ∧
    (verdict ≠ .overAssessed → annualSavingsOf difference verdict = 0) ∧
    monthlySavingsOf difference verdict = annualSavingsOf difference verdict / 12 ∧
    0 ≤ annualSavingsOf difference verdict := by
  refine ⟨?_, ?_, rfl, ?_⟩
  · intro h
    rw [annualSavingsOf, if_pos h, taxRate]
  · intro h
    rw [annualSavingsOf, if_neg h]
  · rw [annualSavingsOf]
    split_ifs
    · exact mul_nonneg (abs_nonneg _) (by norm_num [taxRate])
    · exact le_refl 0

/-- Witness for claim C6 at a concrete input: a fair verdict yields
zero annual savings. -/
theorem savings_spec_witness : annualSavingsOf 1000 Verdict.fair = 0 :=
  (savings_spec 1000 Verdict.fair).2.1 (by decide)

/-- Claim C7: confidence is high iff at least 5 comparables, medium iff
3 or 4, low iff fewer than 3, and it is non-decreasing in the count
under the order low, medium, high. -/
theorem confidence_spec (l₁ l₂ : List Comparable) :
    (calculateConfidence l₁ = .high ↔ 5 ≤ l₁.length) ∧
    (calculateConfidence l₁ = .medium ↔ 3 ≤ l₁.length ∧ l₁.length ≤ 4) ∧
    (calculateConfidence l₁ = .low ↔ l₁.length < 3) ∧
    (l₁.length ≤ l₂.length →
      (calculateConfidence l₁).rank ≤ (calculateConfidence l₂).rank) := by
  refine ⟨?_, ?_, ?_, ?_⟩
  · simp only [calculateConfidence]
    split_ifs <;> simp <;> omega
  · simp only [calculateConfidence]
    split_ifs <;> simp <;> omega
  · simp only [calculateConfidence]
    split_ifs <;> simp <;> omega
  · intro hle
    simp only [calculateConfidence]
    split_ifs <;> simp [Confidence.rank] <;> omega

/-- Witness for claim C7 at concrete inputs: the empty list has
confidence rank at most that of the singleton sample list. -/
theorem confidence_spec_witness :
    (calculateConfidence ([] : List Comparable)).rank
      ≤ (calculateConfidence [sampleComp]).rank :=
  (confidence_spec [] [sampleComp]).2.2.2 (by simp)

/-- Claim C8: when no candidate survives filtering and the AVM value is
unavailable, the analysis still completes, with market value 0, low
confidence, sample size 0, difference equal to the assessed value,
percentage difference 100, and the over-assessed verdict. -/
theorem analyze_no_survivors_spec (property : Property) (rawComparables : List Comparable)
    (sixMonthsAgo : ℤ)
    (hfilter : filterComparables rawComparables property sixMonthsAgo = [])
    (hpos : 0 < property.currentAssessedValue.getD 0) :
    (analyzeProperty property rawComparables none sixMonthsAgo).marketValue = 0 ∧
    (analyzeProperty property rawComparables none sixMonthsAgo).confidenceLevel = .low ∧
    (analyzeProperty property rawComparables none sixMonthsAgo).sampleSize = 0 ∧
    (analyzeProperty property rawComparables none sixMonthsAgo).difference
        = property.currentAssessedValue.getD 0 ∧
    (analyzeProperty property rawComparables none sixMonthsAgo).percentageDifference = 100 ∧
    (analyzeProperty property rawComparables none sixMonthsAgo).verdict = .overAssessed := by
  have hproc : processComparables rawComparables property sixMonthsAgo
      = { comparables := [], marketValue := 0, confidence := .low } := by
    rw [processComparables]
    simp [hfilter, calculateMarketValue, calculateConfidence]
  have hblend : blendValue 0 (normalizeAvm none) 0 = 0 := by
    rw [blendValue, if_neg]
    rintro ⟨ht, -⟩
    simp [normalizeAvm, jsTruthy] at ht
  have hpd : percentageDifference (property.currentAssessedValue.getD 0) 0 = 100 := by
    rw [percentageDifference, if_pos hpos, sub_zero,
      div_self (ne_of_gt hpos), one_mul]
  have hverdict : classifyVerdict 100 = Verdict.overAssessed := by
    rw [classifyVerdict, if_neg (by norm_num), if_pos (by norm_num)]
  refine ⟨?_, ?_, ?_, ?_, ?_, ?_⟩ <;>
    simp [analyzeProperty, hproc, hblend, hpd, hverdict]

/-- Witness for claim C8 at concrete inputs: with no raw comparables
and no AVM value, the sample subject assessed at 500000 is reported
over-assessed with a percentage difference of 100. -/
theorem analyze_no_survivors_spec_witness :
    (analyzeProperty sampleSubject [] none 0).verdict = Verdict.overAssessed ∧
    (analyzeProperty sampleSubject [] none 0).percentageDifference = 100 :=
  ⟨(analyze_no_survivors_spec sampleSubject [] 0 rfl
      (by norm_num [sampleSubject])).2.2.2.2.2,
   (analyze_no_survivors_spec sampleSubject [] 0 rfl
      (by norm_num [sampleSubject])).2.2.2.2.1⟩

/-- Subject used by the claim C9 counterexample. -/
def c9Subject : Property :=
  { characteristics :=
      { sqft := 2000, bedrooms := 3, bathrooms := 2, lotSize := 1/4, yearBuilt := 2010 }
    currentAssessedValue := some 500000 }

/-- Comparable sold exactly at time 0, matching c9Subject on every
characteristic: it survives filtering for the cutoff 0 and is rejected
for the cutoff 1. -/
def c9Comp : Comparable :=
  { salePrice := 450000
    saleDate := 0
    distanceMiles := 1/2
    characteristics := c9Subject.characteristics
    adjustments := zeroAdjustments
    adjustedPrice := 450000 }

/-- Counterexample for claim C9 as stated: the pipeline is not a
function of the subject and raw-comparable list alone, because
filterComparables reads the current clock (new Date()) for its recency
cutoff; two runs on identical subject and raw comparables but at
different clock readings produce different results. -/
theorem processComparables_clock_counterexample :
    processComparables [c9Comp] c9Subject 0 ≠ processComparables [c9Comp] c9Subject 1 := by
  intro h
  have hp0 : passesFilter c9Subject 0 c9Comp = true := by
    norm_num [passesFilter, c9Subject, c9Comp]
  have hp1 : passesFilter c9Subject 1 c9Comp = false := by
    norm_num [passesFilter, c9Subject, c9Comp]
  have h0 : (processComparables [c9Comp] c9Subject 0).comparables.length = 1 := by
    simp [processComparables, filterComparables, hp0]
  have h1 : (processComparables [c9Comp] c9Subject 1).comparables.length = 0 := by
    simp [processComparables, filterComparables, hp1]
  have hlen : (processComparables [c9Comp] c9Subject 0).comparables.length
      = (processComparables [c9Comp] c9Subject 1).comparables.length := by rw [h]
  rw [h0, h1] at hlen
  exact one_ne_zero hlen

/-- Claim C9 (amended): the pipeline is deterministic relative to the
clock: it touches no state other than the evaluation-date cutoff it
derives from the clock, so two runs on identical subject, raw
comparables, and cutoff produce identical surviving comparables, market
value, and confidence. -/
theorem processComparables_deterministic
    (subjectProperty₁ subjectProperty₂ : Property)
    (raw₁ raw₂ : List Comparable) (sixMonthsAgo₁ sixMonthsAgo₂ : ℤ)
    (hs : subjectProperty₁ = subjectProperty₂) (hr : raw₁ = raw₂)
    (hd : sixMonthsAgo₁ = sixMonthsAgo₂) :
    (processComparables raw₁ subjectProperty₁ sixMonthsAgo₁).comparables
        = (processComparables raw₂ subjectProperty₂ sixMonthsAgo₂).comparables ∧
    (processComparables raw₁ subjectProperty₁ sixMonthsAgo₁).marketValue
        = (processComparables raw₂ subjectProperty₂ sixMonthsAgo₂).marketValue ∧
    (processComparables raw₁ subjectProperty₁ sixMonthsAgo₁).confidence
        = (processComparables raw₂ subjectProperty₂ sixMonthsAgo₂).confidence := by
  subst hs hr hd
  exact ⟨rfl, rfl, rfl⟩

/-- Witness for the amended claim C9 at concrete inputs. -/
theorem processComparables_deterministic_witness :
    (processComparables [sampleComp] sampleSubject 0).marketValue
      = (processComparables [sampleComp] sampleSubject 0).marketValue :=
  (processComparables_deterministic sampleSubject sampleSubject
    [sampleComp] [sampleComp] 0 0 rfl rfl rfl).2.1

end PropertyAppeal
